import Mathlib

/-!
Verification development for the placement-management system's serverless
handlers: the job-recommendation scorer (`generate-job-recommendations`),
the resume-skill cleaner (`parse-resume`), and the OTP issuance and
verification handlers (`send-otp`, `verify-otp`).  JavaScript strings are
embedded as Lean `String`s (lists of characters), numbers as `ℚ`/`ℤ`/`ℕ`,
and each handler as a pure function from its inputs (request fields, the
rows the handler reads, the sampled randomness) to its response and the
database writes it performs.
-/

namespace Placement

/-! ## JavaScript string primitives -/

/-- Is `needle` a prefix of `hay`?  (Character-by-character.) -/
def leadsWith : List Char → List Char → Bool
  | [], _ => true
  | _ :: _, [] => false
  | a :: as, b :: bs => a == b && leadsWith as bs

/-- Contiguous-substring test on character lists: JS `hay.includes(needle)`. -/
def containsSub (hay needle : List Char) : Bool :=
  match hay with
  | [] => leadsWith needle []
  | _ :: t => leadsWith needle hay || containsSub t needle

/-- JS `s.includes(t)`. -/
def strIncludes (s t : String) : Bool :=
  containsSub s.data t.data

/-- JS `s.toLowerCase()` on basic-latin text, mapped characterwise. -/
def lowerStr (s : String) : String :=
  ⟨s.data.map Char.toLower⟩

/-- Whitespace characters removed by JS `String.prototype.trim` (ASCII part). -/
def isSpaceChar (c : Char) : Bool :=
  c == ' ' || c == '\t' || c == '\n' || c == '\r'

/-- Strip leading and trailing whitespace from a character list. -/
def trimChars (l : List Char) : List Char :=
  (((l.dropWhile isSpaceChar).reverse).dropWhile isSpaceChar).reverse

/-- JS `s.trim()`. -/
def trimStr (s : String) : String :=
  ⟨trimChars s.data⟩

/-- The character `[` (code 91). -/
def lBracketChar : Char := Char.ofNat 91

/-- The character `]` (code 93). -/
def rBracketChar : Char := Char.ofNat 93

/-- The character `=` (code 61). -/
def equalsChar : Char := Char.ofNat 61

/-- The left curly bracket character (code 123). -/
def lCurlyChar : Char := Char.ofNat 123

/-- The right curly bracket character (code 125). -/
def rCurlyChar : Char := Char.ofNat 125

/-- One-character string, for embedding JS `s.includes('x')`. -/
def charStr (c : Char) : String := ⟨[c]⟩

/-! ## Recommender: `calculateSkillMatch` (generate-job-recommendations)

Source:
```
function calculateSkillMatch(studentSkills, jobSkills) {
  if (jobSkills.length === 0 || studentSkills.length === 0) return 50;
  let matches = 0;
  for (const jobSkill of jobSkills) {
    if (studentSkills.some(s => s.includes(jobSkill) || jobSkill.includes(s))) {
      matches++;
    }
  }
  return (matches / jobSkills.length) * 100;
}
```
-/

/-- The recommender's skill-overlap score (a rational in `[0, 100]`). -/
def calculateSkillMatch (studentSkills jobSkills : List String) : ℚ :=
  if jobSkills.length = 0 ∨ studentSkills.length = 0 then 50
  else
    let matchCount :=
      (jobSkills.filter (fun jobSkill =>
        studentSkills.any (fun s =>
          strIncludes s jobSkill || strIncludes jobSkill s))).length
    ((matchCount : ℚ) / (jobSkills.length : ℚ)) * 100

/-- The recommender's per-skill validity filter on `profile.resume_skills`:
```
.filter((skill) => {
  if (!skill || typeof skill !== 'string') return false;
  if (skill.includes('[') || skill.includes('=') || skill.includes('{')) return false;
  return skill.length > 1;
})
```
(`typeof` is vacuous in the embedding: inputs are strings.) -/
def recommenderSkillKeep (skill : String) : Bool :=
  if skill = "" then false
  else if strIncludes skill (charStr lBracketChar)
       || strIncludes skill (charStr equalsChar)
       || strIncludes skill (charStr lCurlyChar) then false
  else decide (skill.length > 1)

/-- The recommender's cleaned, lower-cased, trimmed candidate skill set:
`.filter(...).map(s => s.toLowerCase().trim())`. -/
def studentSkillsOf (resumeSkills : List String) : List String :=
  (resumeSkills.filter recommenderSkillKeep).map (fun s => trimStr (lowerStr s))

/-- The skill component the recommender computes for one posting: candidate
skills cleaned from the profile, posting skills lower-cased
(`job.skills_required.map(s => s.toLowerCase())`), then `calculateSkillMatch`. -/
def pipelineSkillMatch (resumeSkills jobSkills : List String) : ℚ :=
  calculateSkillMatch (studentSkillsOf resumeSkills) (jobSkills.map lowerStr)

/-- JS `Math.round`: round half away from zero upward, `⌊x + 1/2⌋`. -/
def jsRound (q : ℚ) : ℤ :=
  ⌊q + 1 / 2⌋

/-- One row of `offcampus_jobs` as the recommender reads it
(`select("id, role, company_name, skills_required")`). -/
structure OffcampusJob where
  id : String
  role : String
  company_name : String
  skills_required : List String
  deriving DecidableEq

/-- One element of the in-memory `recommendations` array (interface
`JobRecommendation` in the handler; `job_source` is always `'offcampus'`). -/
structure JobRecommendation where
  job_id : String
  company_name : String
  role : String
  match_score : ℤ
  skill_match : ℤ
  test_performance : ℤ
  interview_performance : ℤ
  reasons : List String
  skills_required : List String
  deriving DecidableEq

/-- The informational reason tags pushed for one posting, in push order. -/
def reasonsFor (jobSkills : List String) (skillMatch avgMock avgInterview : ℚ) :
    List String :=
  (if jobSkills.length = 0 then ["Open to all candidates"]
   else if skillMatch > 70 then ["Strong skill match"]
   else if skillMatch > 40 then ["Good skill match"]
   else [])
  ++ (if avgMock > 70 then ["Excellent test performance"] else [])
  ++ (if avgInterview > 70 then ["Strong interview performance"] else [])

/-- The unrounded composite score for one posting:
`(skillMatch * 0.5) + (avgMockScore * 0.25) + (avgInterviewScore * 0.25)`. -/
def rawMatchScore (resumeSkills : List String) (avgMock avgInterview : ℚ)
    (job : OffcampusJob) : ℚ :=
  pipelineSkillMatch resumeSkills job.skills_required * (1 / 2)
    + avgMock * (1 / 4) + avgInterview * (1 / 4)

/-- The recommendation object the handler builds for one posting
(all numeric fields stored through `Math.round`). -/
def recommendationFor (resumeSkills : List String) (avgMock avgInterview : ℚ)
    (job : OffcampusJob) : JobRecommendation :=
  let jobSkills := job.skills_required.map lowerStr
  let skillMatch := calculateSkillMatch (studentSkillsOf resumeSkills) jobSkills
  { job_id := job.id
    company_name := job.company_name
    role := job.role
    match_score := jsRound (skillMatch * (1 / 2) + avgMock * (1 / 4)
      + avgInterview * (1 / 4))
    skill_match := jsRound skillMatch
    test_performance := jsRound avgMock
    interview_performance := jsRound avgInterview
    reasons := reasonsFor jobSkills skillMatch avgMock avgInterview
    skills_required := jobSkills }

/-- The `recommendations` array after the per-job loop: a posting is pushed
exactly when its unrounded `matchScore` is at least 15. -/
def computeRecommendations (resumeSkills : List String) (avgMock avgInterview : ℚ)
    (jobs : List OffcampusJob) : List JobRecommendation :=
  (jobs.filter (fun job =>
    decide (15 ≤ rawMatchScore resumeSkills avgMock avgInterview job))).map
    (recommendationFor resumeSkills avgMock avgInterview)

/-- `recommendations.sort((a, b) => b.match_score - a.match_score)`:
a stable sort that puts `a` before `b` when `b.match_score ≤ a.match_score`. -/
def sortedRecommendations (resumeSkills : List String) (avgMock avgInterview : ℚ)
    (jobs : List OffcampusJob) : List JobRecommendation :=
  (computeRecommendations resumeSkills avgMock avgInterview jobs).mergeSort
    (fun a b => decide (b.match_score ≤ a.match_score))

/-- One row of the `job_recommendations` table as inserted by the handler. -/
structure StoredRecommendation where
  student_id : String
  job_id : String
  job_source : String
  match_score : ℤ
  skill_match : ℤ
  test_performance : ℤ
  interview_performance : ℤ
  reasons : List String
  deriving DecidableEq

/-- The row inserted for one recommendation (`recommendations.map(rec => ...)`). -/
def toStored (studentId : String) (rec : JobRecommendation) : StoredRecommendation :=
  { student_id := studentId
    job_id := rec.job_id
    job_source := "offcampus"
    match_score := rec.match_score
    skill_match := rec.skill_match
    test_performance := rec.test_performance
    interview_performance := rec.interview_performance
    reasons := rec.reasons }

/-- The handler's effect on the `job_recommendations` table: delete every row
of this student, then insert the freshly computed rows (inserting nothing when
the list is empty coincides with appending the empty list). -/
def updateRecommendationsTable (table : List StoredRecommendation)
    (studentId : String) (resumeSkills : List String) (avgMock avgInterview : ℚ)
    (jobs : List OffcampusJob) : List StoredRecommendation :=
  table.filter (fun r => r.student_id ≠ studentId)
    ++ (sortedRecommendations resumeSkills avgMock avgInterview jobs).map
        (toStored studentId)

/-! ## `parse-resume`: skill cleaning

Source:
```
skills = skills
  .filter(skill => {
    if (!skill || typeof skill !== 'string') return false;
    if (skill.length < 2 || skill.length > 50) return false;
    if (skill.includes('[') || skill.includes('=') || skill.includes('{')) return false;
    return true;
  })
  .map(skill => skill.trim())
  .filter(skill => skill.length > 0);
```
-/

/-- The extraction cleaner's per-skill validity filter. -/
def parseSkillKeep (skill : String) : Bool :=
  if skill = "" then false
  else if skill.length < 2 ∨ skill.length > 50 then false
  else if strIncludes skill (charStr lBracketChar)
       || strIncludes skill (charStr equalsChar)
       || strIncludes skill (charStr lCurlyChar) then false
  else true

/-- The cleaned skill list stored to `profiles.resume_skills`. -/
def parseSkillsClean (skills : List String) : List String :=
  ((skills.filter parseSkillKeep).map trimStr).filter
    (fun skill => decide (skill.length > 0))

/-! ## OTP records (table `otp_verifications`)

Schema (migration `20251025142101`): `id`, `email TEXT`, `otp TEXT`,
`created_at`, `expires_at`, `verified BOOLEAN NOT NULL DEFAULT false`,
`attempts INTEGER NOT NULL DEFAULT 0`.  Timestamps are embedded as integer
milliseconds. -/

structure OtpRecord where
  id : ℕ
  email : String
  otp : String
  created_at : ℤ
  expires_at : ℤ
  verified : Bool
  attempts : ℕ
  deriving DecidableEq

/-! ## `send-otp`: code generation and issuance -/

/-- `Math.floor(100000 + Math.random() * 900000)` where `r` stands for the
sampled value of `Math.random()` (a real in `[0, 1)`, embedded as `ℚ`). -/
def genOtpNat (r : ℚ) : ℕ :=
  (⌊(100000 : ℚ) + r * 900000⌋).toNat

/-- JS `Number.prototype.toString` on a nonnegative integer: its decimal
digits, most significant first, with no leading zeros (and `"0"` for zero). -/
def decimalString (n : ℕ) : String :=
  ⟨(Nat.digits 10 n).reverse.map (fun d => Char.ofNat (48 + d))⟩

/-- The code string the handler stores and emails: `genOtpNat` rendered by
`.toString()`. -/
def otpCodeString (r : ℚ) : String :=
  decimalString (genOtpNat r)

/-- Expiry: `new Date(Date.now() + 10 * 60 * 1000)`. -/
def otpExpiryMs : ℤ := 10 * 60 * 1000

/-- The freshly inserted row: the handler sets `email`, `otp`, `expires_at`;
`verified` and `attempts` take the table defaults `false` and `0`. -/
def newOtpRow (newId : ℕ) (email otp : String) (now : ℤ) : OtpRecord :=
  { id := newId
    email := email
    otp := otp
    created_at := now
    expires_at := now + otpExpiryMs
    verified := false
    attempts := 0 }

/-- The issuing handler's delete:
`.delete().eq("email", email).eq("verified", false)`. -/
def deleteUnverifiedFor (table : List OtpRecord) (email : String) :
    List OtpRecord :=
  table.filter (fun r => decide (¬(r.email = email ∧ r.verified = false)))

/-- The `otp_verifications` table after a successful issuance for `email`:
prior unverified rows for the email deleted, then the new row inserted. -/
def issueOtp (table : List OtpRecord) (email otp : String) (now : ℤ)
    (newId : ℕ) : List OtpRecord :=
  deleteUnverifiedFor table email ++ [newOtpRow newId email otp now]

/-! ## `verify-otp`: the verification handler -/

/-- The JSON response of the handler, reduced to the fields the claims are
about: HTTP status, the `error` message if any, and the `tempPassword`
returned on success. -/
structure HttpResponse where
  status : ℕ
  error : Option String
  tempPassword : Option String
  deriving DecidableEq

/-- An error response `{ error: msg }` with the given status. -/
def errorResponse (status : ℕ) (msg : String) : HttpResponse :=
  { status := status, error := some msg, tempPassword := none }

/-- The status-200 success response (always carries `tempPassword`). -/
def successResponse (tempPassword : String) : HttpResponse :=
  { status := 200, error := none, tempPassword := some tempPassword }

/-- The invalid-code message: remaining-attempts text while attempts remain,
else the exhaustion text. -/
def invalidOtpMessage (remaining : ℕ) : String :=
  if remaining > 0 then
    "Invalid OTP. " ++ toString remaining
      ++ " attempts remaining. Please check your email for the most recent code."
  else
    "Too many failed attempts. Please request a new OTP."

/-- The database writes the verification handler can perform.  A constructor
for a row deletion is included so that "the record is not deleted" is
expressible; the handler never emits it. -/
inductive DbWrite where
  | incrementAttempts (recordId newValue : ℕ)
  | markVerified (recordId : ℕ)
  | createUser (email password : String)
  | insertUserRole (email role : String)
  | updateProfile (email : String)
  | setPassword (email password : String)
  | deleteOtpRecord (recordId : ℕ)
  deriving DecidableEq

/-- JS truthiness of an optional string field (`name && role`). -/
def truthy : Option String → Bool
  | none => false
  | some s => s ≠ ""

/-- The `verify-otp` handler as a pure function.  `otpRecord` is the result of
the lookup (most recent unverified row for the email, if any), `now` the
current time, `userExists` whether `listUsers` finds an account for the email,
and `tempPassword` the freshly generated random password.  Returns the HTTP
response together with the database writes performed, in order. -/
def verifyOtpHandler (email otp : String) (otpRecord : Option OtpRecord)
    (now : ℤ) (purpose : String) (name role : Option String)
    (userExists : Bool) (tempPassword : String) :
    HttpResponse × List DbWrite :=
  if email = "" ∨ otp = "" then
    (errorResponse 400 "Email and OTP are required", [])
  else
    match otpRecord with
    | none => (errorResponse 404 "No OTP found for this email", [])
    | some rec =>
      if rec.expires_at < now then
        (errorResponse 400 "OTP has expired", [])
      else if 5 ≤ rec.attempts then
        (errorResponse 400 "Too many failed attempts. Please request a new OTP", [])
      else if trimStr rec.otp ≠ trimStr otp then
        (errorResponse 400 (invalidOtpMessage (5 - (rec.attempts + 1))),
          [DbWrite.incrementAttempts rec.id (rec.attempts + 1)])
      else if purpose = "signup" ∧ truthy name ∧ truthy role then
        if userExists then
          (errorResponse 400
            "A user with this email already exists. Please login instead.", [])
        else
          (successResponse tempPassword,
            [DbWrite.createUser email tempPassword,
             DbWrite.insertUserRole email (role.getD ""),
             DbWrite.updateProfile email,
             DbWrite.markVerified rec.id])
      else if purpose = "reset" then
        if userExists then
          (successResponse tempPassword,
            [DbWrite.setPassword email tempPassword,
             DbWrite.updateProfile email,
             DbWrite.markVerified rec.id])
        else
          (successResponse tempPassword, [])
      else
        (successResponse tempPassword, [])

/-! ## Helper lemmas -/

theorem char_toNat_ofNat {n : ℕ} (h : n.isValidChar) :
    (Char.ofNat n).toNat = n := by
  rw [Char.ofNat, dif_pos h]
  rfl

theorem char_toLower_eq (c : Char) :
    c.toLower = if 65 ≤ c.toNat ∧ c.toNat ≤ 90 then Char.ofNat (c.toNat + 32)
      else c := rfl

theorem toLower_toNat_of_upper {c : Char} (h1 : 65 ≤ c.toNat)
    (h2 : c.toNat ≤ 90) : c.toLower.toNat = c.toNat + 32 := by
  rw [char_toLower_eq, if_pos ⟨h1, h2⟩]
  exact char_toNat_ofNat (Or.inl (by omega))

theorem char_toLower_idem (c : Char) : c.toLower.toLower = c.toLower := by
  by_cases h : 65 ≤ c.toNat ∧ c.toNat ≤ 90
  · have ht : c.toLower.toNat = c.toNat + 32 := toLower_toNat_of_upper h.1 h.2
    rw [char_toLower_eq c.toLower, if_neg (by rw [ht]; omega)]
  · have hfix : c.toLower = c := by rw [char_toLower_eq, if_neg h]
    rw [hfix]
    exact hfix

theorem mem_of_mem_trimChars {x : Char} {l : List Char}
    (h : x ∈ trimChars l) : x ∈ l := by
  unfold trimChars at h
  have h1 := List.mem_reverse.mp h
  have h2 := (List.dropWhile_sublist isSpaceChar).subset h1
  have h3 := List.mem_reverse.mp h2
  exact (List.dropWhile_sublist isSpaceChar).subset h3

theorem map_toLower_fixed {m : List Char}
    (h : ∀ x ∈ m, Char.toLower x = x) : m.map Char.toLower = m :=
  (List.map_congr_left h).trans (List.map_id m)

/-- Cleaned candidate skills are already lower-cased: lower-casing an output
of the recommender's cleaning map is the identity. -/
theorem lowerStr_clean_fixed (s : String) :
    lowerStr (trimStr (lowerStr s)) = trimStr (lowerStr s) := by
  show String.mk ((trimChars (s.data.map Char.toLower)).map Char.toLower)
    = String.mk (trimChars (s.data.map Char.toLower))
  congr 1
  apply map_toLower_fixed
  intro x hx
  have hx2 : x ∈ s.data.map Char.toLower := mem_of_mem_trimChars hx
  rcases List.mem_map.mp hx2 with ⟨y, _, hy⟩
  rw [← hy]
  exact char_toLower_idem y

theorem lowerStr_fixed_of_clean {c : String}
    (h : ∃ s, c = trimStr (lowerStr s)) : lowerStr c = c := by
  rcases h with ⟨s, rfl⟩
  exact lowerStr_clean_fixed s

theorem list_any_congr {α : Type} {l : List α} {f g : α → Bool}
    (h : ∀ x ∈ l, f x = g x) : l.any f = l.any g := by
  induction l with
  | nil => rfl
  | cons a t ih =>
    simp only [List.any_cons]
    rw [h a (List.mem_cons_self a t), ih (fun x hx => h x (List.mem_cons_of_mem a hx))]

/-! ## Claim theorems: the recommender -/

/-- Case-insensitive substring relation of the specification: `a` occurs as a
contiguous substring of `b` once both are lower-cased. -/
def ciSubstrOf (a b : String) : Bool :=
  containsSub (lowerStr b).data (lowerStr a).data

/-- Claim C4.  For every posting whose required-skill set is empty, and for
every candidate whose cleaned skill set is empty, the skill component is
exactly 50, independent of the other side's skills. -/
theorem C4_empty_side_gives_neutral_50 (resumeSkills jobSkills : List String)
    (h : jobSkills = [] ∨ studentSkillsOf resumeSkills = []) :
    pipelineSkillMatch resumeSkills jobSkills = 50 := by
  unfold pipelineSkillMatch calculateSkillMatch
  have hcond : (jobSkills.map lowerStr).length = 0
      ∨ (studentSkillsOf resumeSkills).length = 0 := by
    rcases h with h | h
    · left; rw [h]; rfl
    · right; rw [h]; rfl
  rw [if_pos hcond]

/-- Witness for C4: a posting with no required skills scores 50 even against
a candidate with skills. -/
theorem C4_empty_side_gives_neutral_50_witness :
    pipelineSkillMatch ["python"] [] = 50 :=
  C4_empty_side_gives_neutral_50 ["python"] [] (Or.inl rfl)

/-- Claim C3.  With a non-empty required-skill set and a non-empty cleaned
candidate skill set, a required skill counts as matched exactly when it is a
case-insensitive substring of some cleaned candidate skill or some cleaned
candidate skill is a case-insensitive substring of it, and the skill
component is `matched / required × 100`; in particular `["python","react"]`
against required `["Python","SQL"]` gives 50. -/
theorem C3_bidirectional_substring_component :
    (∀ resumeSkills jobSkills : List String,
      studentSkillsOf resumeSkills ≠ [] → jobSkills ≠ [] →
      pipelineSkillMatch resumeSkills jobSkills =
        ((jobSkills.countP (fun req =>
          (studentSkillsOf resumeSkills).any (fun c =>
            ciSubstrOf req c || ciSubstrOf c req)) : ℚ)
          / (jobSkills.length : ℚ)) * 100) ∧
    pipelineSkillMatch ["python", "react"] ["Python", "SQL"] = 50 := by
  constructor
  · intro resumeSkills jobSkills hs hj
    unfold pipelineSkillMatch calculateSkillMatch
    rw [if_neg]
    · have hlen : (jobSkills.map lowerStr).length = jobSkills.length :=
        List.length_map jobSkills lowerStr
      have hcount :
          (List.filter (fun jobSkill =>
            (studentSkillsOf resumeSkills).any (fun s =>
              strIncludes s jobSkill || strIncludes jobSkill s))
            (jobSkills.map lowerStr)).length
          = jobSkills.countP (fun req =>
              (studentSkillsOf resumeSkills).any (fun c =>
                ciSubstrOf req c || ciSubstrOf c req)) := by
        rw [← List.countP_eq_length_filter, List.countP_map]
        apply List.countP_congr
        intro req _
        simp only [Function.comp_apply]
        have hany : ((studentSkillsOf resumeSkills).any fun s =>
            strIncludes s (lowerStr req) || strIncludes (lowerStr req) s)
            = ((studentSkillsOf resumeSkills).any fun c =>
              ciSubstrOf req c || ciSubstrOf c req) := by
          apply list_any_congr
          intro c hc
          have hcfix : lowerStr c = c := by
            apply lowerStr_fixed_of_clean
            rcases List.mem_map.mp hc with ⟨s, _, hs'⟩
            exact ⟨s, hs'.symm⟩
          show (strIncludes c (lowerStr req) || strIncludes (lowerStr req) c)
            = (ciSubstrOf req c || ciSubstrOf c req)
          unfold ciSubstrOf strIncludes
          rw [hcfix]
        rw [hany]
      simp only [hcount, hlen]
    · push_neg
      constructor
      · intro hz
        exact hj (List.length_eq_zero.mp (by rw [← List.length_map jobSkills lowerStr, hz]))
      · intro hz
        exact hs (List.length_eq_zero.mp hz)
  · have h : pipelineSkillMatch ["python", "react"] ["Python", "SQL"]
        = (((1 : ℕ) : ℚ) / ((2 : ℕ) : ℚ)) * 100 := rfl
    rw [h]; norm_num

/-- Witness for C3: the quantified part applied to the concrete example. -/
theorem C3_bidirectional_substring_component_witness :
    pipelineSkillMatch ["python", "react"] ["Python", "SQL"] =
      (((["Python", "SQL"] : List String).countP (fun req =>
        (studentSkillsOf ["python", "react"]).any (fun c =>
          ciSubstrOf req c || ciSubstrOf c req)) : ℚ)
        / ((["Python", "SQL"] : List String).length : ℚ)) * 100 :=
  C3_bidirectional_substring_component.1 ["python", "react"] ["Python", "SQL"]
    (by decide) (by decide)

/-- Claim C1.  Every recommendation the recommender produces carries
`match_score = round(0.5 × skill_component + 0.25 × assessment_average +
0.25 × interview_average)`, with the three components also rounded and stored
individually; and at skill 100, assessment 80, interview 60 the stored score
is 85. -/
theorem C1_composite_weighted_rounded :
    (∀ (resumeSkills : List String) (avgMock avgInterview : ℚ)
      (jobs : List OffcampusJob),
      ∀ rec ∈ computeRecommendations resumeSkills avgMock avgInterview jobs,
      ∃ job ∈ jobs,
        rec.match_score = jsRound ((1 / 2)
            * pipelineSkillMatch resumeSkills job.skills_required
            + (1 / 4) * avgMock + (1 / 4) * avgInterview) ∧
        rec.skill_match
          = jsRound (pipelineSkillMatch resumeSkills job.skills_required) ∧
        rec.test_performance = jsRound avgMock ∧
        rec.interview_performance = jsRound avgInterview) ∧
    jsRound ((1 / 2) * 100 + (1 / 4) * 80 + (1 / 4) * 60) = 85 := by
  constructor
  · intro resumeSkills avgMock avgInterview jobs rec hrec
    unfold computeRecommendations at hrec
    rcases List.mem_map.mp hrec with ⟨job, hjf, hrec'⟩
    refine ⟨job, List.mem_of_mem_filter hjf, ?_, ?_, ?_, ?_⟩
    · rw [← hrec']
      show jsRound (pipelineSkillMatch resumeSkills job.skills_required * (1 / 2)
        + avgMock * (1 / 4) + avgInterview * (1 / 4)) = _
      exact congrArg jsRound (by ring)
    · rw [← hrec']; rfl
    · rw [← hrec']; rfl
    · rw [← hrec']; rfl
  · show (⌊(1 / 2 : ℚ) * 100 + (1 / 4) * 80 + (1 / 4) * 60 + 1 / 2⌋ : ℤ) = 85
    apply Int.floor_eq_iff.mpr
    constructor <;> norm_num

/-- Witness for C1: a single open-to-all posting against a candidate with no
cleaned skills and averages 80/60 yields a stored recommendation whose fields
are the rounded components. -/
theorem C1_composite_weighted_rounded_witness :
    ∃ job ∈ [(⟨"j1", "dev", "acme", []⟩ : OffcampusJob)],
      (recommendationFor [] 80 60 ⟨"j1", "dev", "acme", []⟩).match_score
        = jsRound ((1 / 2) * pipelineSkillMatch [] job.skills_required
            + (1 / 4) * 80 + (1 / 4) * 60) ∧
      (recommendationFor [] 80 60 ⟨"j1", "dev", "acme", []⟩).skill_match
        = jsRound (pipelineSkillMatch [] job.skills_required) ∧
      (recommendationFor [] 80 60 ⟨"j1", "dev", "acme", []⟩).test_performance
        = jsRound 80 ∧
      (recommendationFor [] 80 60 ⟨"j1", "dev", "acme", []⟩).interview_performance
        = jsRound 60 := by
  have hraw : rawMatchScore [] 80 60 ⟨"j1", "dev", "acme", []⟩
      = (50 : ℚ) * (1 / 2) + 80 * (1 / 4) + 60 * (1 / 4) := rfl
  have h15 : (15 : ℚ) ≤ rawMatchScore [] 80 60 ⟨"j1", "dev", "acme", []⟩ := by
    rw [hraw]; norm_num
  have hmem : recommendationFor [] 80 60 ⟨"j1", "dev", "acme", []⟩
      ∈ computeRecommendations [] 80 60 [⟨"j1", "dev", "acme", []⟩] := by
    unfold computeRecommendations
    exact List.mem_map_of_mem _
      (List.mem_filter.mpr ⟨List.mem_cons_self _ _, decide_eq_true h15⟩)
  exact C1_composite_weighted_rounded.1 [] 80 60
    [⟨"j1", "dev", "acme", []⟩] _ hmem

/-- Claim C2.  The retained recommendation list is exactly the per-posting
computed list filtered by `match_score ≥ 15` on the unrounded composite, and
every row persisted for the student carries a stored `match_score ≥ 15`. -/
theorem C2_retention_threshold_15 :
    (∀ (resumeSkills : List String) (avgMock avgInterview : ℚ)
       (jobs : List OffcampusJob),
      computeRecommendations resumeSkills avgMock avgInterview jobs
        = (jobs.filter (fun job =>
            decide (15 ≤ rawMatchScore resumeSkills avgMock avgInterview job))).map
            (recommendationFor resumeSkills avgMock avgInterview)) ∧
    (∀ (table : List StoredRecommendation) (studentId : String)
       (resumeSkills : List String) (avgMock avgInterview : ℚ)
       (jobs : List OffcampusJob),
      ∀ row ∈ updateRecommendationsTable table studentId resumeSkills avgMock
          avgInterview jobs,
        row.student_id = studentId → 15 ≤ row.match_score) := by
  constructor
  · intro resumeSkills avgMock avgInterview jobs
    rfl
  · intro table studentId resumeSkills avgMock avgInterview jobs row hrow hsid
    unfold updateRecommendationsTable at hrow
    rcases List.mem_append.mp hrow with h | h
    · exact absurd hsid (of_decide_eq_true (List.mem_filter.mp h).2)
    · rcases List.mem_map.mp h with ⟨rec, hrecmem, hrow'⟩
      have hrecmem' : rec ∈ computeRecommendations resumeSkills avgMock
          avgInterview jobs := by
        unfold sortedRecommendations at hrecmem
        exact (List.mergeSort_perm _ _).mem_iff.mp hrecmem
      unfold computeRecommendations at hrecmem'
      rcases List.mem_map.mp hrecmem' with ⟨job, hjf, hrec'⟩
      have h15 : (15 : ℚ) ≤ rawMatchScore resumeSkills avgMock avgInterview job :=
        of_decide_eq_true (List.mem_filter.mp hjf).2
      rw [← hrow']
      show 15 ≤ rec.match_score
      rw [← hrec']
      show (15 : ℤ) ≤ jsRound (pipelineSkillMatch resumeSkills job.skills_required
        * (1 / 2) + avgMock * (1 / 4) + avgInterview * (1 / 4))
      have hr : rawMatchScore resumeSkills avgMock avgInterview job
          = pipelineSkillMatch resumeSkills job.skills_required * (1 / 2)
            + avgMock * (1 / 4) + avgInterview * (1 / 4) := rfl
      rw [hr] at h15
      apply Int.le_floor.mpr
      push_cast
      linarith

/-- Witness for C2: with one qualifying posting and one stale stored row, the
row persisted for the student has stored score at least 15. -/
theorem C2_retention_threshold_15_witness :
    computeRecommendations [] 80 60 [⟨"j1", "dev", "acme", []⟩]
      = (([⟨"j1", "dev", "acme", []⟩] : List OffcampusJob).filter (fun job =>
          decide (15 ≤ rawMatchScore [] 80 60 job))).map
          (recommendationFor [] 80 60) ∧
    15 ≤ (toStored "u1" (recommendationFor [] 80 60
      ⟨"j1", "dev", "acme", []⟩)).match_score := by
  constructor
  · exact C2_retention_threshold_15.1 [] 80 60 [⟨"j1", "dev", "acme", []⟩]
  · have hraw : rawMatchScore [] 80 60 ⟨"j1", "dev", "acme", []⟩
        = (50 : ℚ) * (1 / 2) + 80 * (1 / 4) + 60 * (1 / 4) := rfl
    have h15 : (15 : ℚ) ≤ rawMatchScore [] 80 60 ⟨"j1", "dev", "acme", []⟩ := by
      rw [hraw]; norm_num
    have hmem : recommendationFor [] 80 60 ⟨"j1", "dev", "acme", []⟩
        ∈ computeRecommendations [] 80 60 [⟨"j1", "dev", "acme", []⟩] := by
      unfold computeRecommendations
      exact List.mem_map_of_mem _
        (List.mem_filter.mpr ⟨List.mem_cons_self _ _, decide_eq_true h15⟩)
    apply C2_retention_threshold_15.2
      [⟨"u1", "old", "offcampus", 3, 3, 3, 3, []⟩] "u1" [] 80 60
      [⟨"j1", "dev", "acme", []⟩]
      (toStored "u1" (recommendationFor [] 80 60 ⟨"j1", "dev", "acme", []⟩))
    · unfold updateRecommendationsTable
      apply List.mem_append_right
      apply List.mem_map_of_mem
      unfold sortedRecommendations
      exact (List.mergeSort_perm _ _).mem_iff.mpr hmem
    · rfl

/-! ## Claim theorems: OTP verification and issuance -/

/-- Reduction of the verification handler on a found record, once the
missing-field guard has been passed. -/
theorem verifyOtpHandler_some (email otp : String) (rec : OtpRecord) (now : ℤ)
    (purpose : String) (name role : Option String) (userExists : Bool)
    (tempPassword : String) (hemail : email ≠ "") (hotp : otp ≠ "") :
    verifyOtpHandler email otp (some rec) now purpose name role userExists
        tempPassword
      = if rec.expires_at < now then
          (errorResponse 400 "OTP has expired", [])
        else if 5 ≤ rec.attempts then
          (errorResponse 400 "Too many failed attempts. Please request a new OTP",
            [])
        else if trimStr rec.otp ≠ trimStr otp then
          (errorResponse 400 (invalidOtpMessage (5 - (rec.attempts + 1))),
            [DbWrite.incrementAttempts rec.id (rec.attempts + 1)])
        else if purpose = "signup" ∧ truthy name ∧ truthy role then
          if userExists then
            (errorResponse 400
              "A user with this email already exists. Please login instead.", [])
          else
            (successResponse tempPassword,
              [DbWrite.createUser email tempPassword,
               DbWrite.insertUserRole email (role.getD ""),
               DbWrite.updateProfile email,
               DbWrite.markVerified rec.id])
        else if purpose = "reset" then
          if userExists then
            (successResponse tempPassword,
              [DbWrite.setPassword email tempPassword,
               DbWrite.updateProfile email,
               DbWrite.markVerified rec.id])
          else
            (successResponse tempPassword, [])
        else
          (successResponse tempPassword, []) := by
  unfold verifyOtpHandler
  rw [if_neg (by push_neg; exact ⟨hemail, hotp⟩)]

/-- Reduction of the verification handler when no record is found. -/
theorem verifyOtpHandler_none (email otp : String) (now : ℤ) (purpose : String)
    (name role : Option String) (userExists : Bool) (tempPassword : String)
    (hemail : email ≠ "") (hotp : otp ≠ "") :
    verifyOtpHandler email otp none now purpose name role userExists tempPassword
      = (errorResponse 404 "No OTP found for this email", []) := by
  unfold verifyOtpHandler
  rw [if_neg (by push_neg; exact ⟨hemail, hotp⟩)]

/-- Claim C5.  When the matching code row already has 5 or more failed
attempts, verification is rejected regardless of the submitted code: the
response is a non-200 error, no database write happens (in particular the
record is not deleted), and the result does not depend on the submitted
code, so the rejection precedes any code comparison. -/
theorem C5_attempts_exhausted_always_rejects (email otp : String)
    (rec : OtpRecord) (now : ℤ) (purpose : String) (name role : Option String)
    (userExists : Bool) (tempPassword : String)
    (hemail : email ≠ "") (hotp : otp ≠ "") (hatt : 5 ≤ rec.attempts) :
    (verifyOtpHandler email otp (some rec) now purpose name role userExists
      tempPassword).1.status ≠ 200 ∧
    (verifyOtpHandler email otp (some rec) now purpose name role userExists
      tempPassword).1.error.isSome = true ∧
    (verifyOtpHandler email otp (some rec) now purpose name role userExists
      tempPassword).2 = [] ∧
    (∀ i : ℕ, DbWrite.deleteOtpRecord i ∉
      (verifyOtpHandler email otp (some rec) now purpose name role userExists
        tempPassword).2) ∧
    (∀ otp2 : String, otp2 ≠ "" →
      verifyOtpHandler email otp2 (some rec) now purpose name role userExists
          tempPassword
        = verifyOtpHandler email otp (some rec) now purpose name role userExists
          tempPassword) := by
  have hchar : ∀ o2 : String, o2 ≠ "" →
      verifyOtpHandler email o2 (some rec) now purpose name role userExists
          tempPassword
        = (if rec.expires_at < now then
            (errorResponse 400 "OTP has expired", ([] : List DbWrite))
          else
            (errorResponse 400
              "Too many failed attempts. Please request a new OTP", [])) := by
    intro o2 ho2
    rw [verifyOtpHandler_some email o2 rec now purpose name role userExists
      tempPassword hemail ho2]
    by_cases hexp : rec.expires_at < now
    · rw [if_pos hexp, if_pos hexp]
    · rw [if_neg hexp, if_neg hexp, if_pos hatt]
  have hme := hchar otp hotp
  refine ⟨?_, ?_, ?_, ?_, ?_⟩
  · rw [hme]
    by_cases hexp : rec.expires_at < now <;>
      simp [hexp, errorResponse]
  · rw [hme]
    by_cases hexp : rec.expires_at < now <;>
      simp [hexp, errorResponse]
  · rw [hme]
    by_cases hexp : rec.expires_at < now <;> simp [hexp]
  · intro i
    rw [hme]
    by_cases hexp : rec.expires_at < now <;> simp [hexp]
  · intro otp2 hotp2
    rw [hchar otp2 hotp2, hme]

/-- Witness for C5: a record with 5 attempts and a correct stored code still
yields a rejection with no writes, and the wrong code gives the same result. -/
theorem C5_attempts_exhausted_always_rejects_witness :
    (verifyOtpHandler "a@b.c" "123456"
      (some ⟨1, "a@b.c", "123456", 0, 100, false, 5⟩) 10 "signup" none none
      false "pw").1.status ≠ 200 ∧
    (verifyOtpHandler "a@b.c" "123456"
      (some ⟨1, "a@b.c", "123456", 0, 100, false, 5⟩) 10 "signup" none none
      false "pw").2 = [] ∧
    verifyOtpHandler "a@b.c" "999999"
        (some ⟨1, "a@b.c", "123456", 0, 100, false, 5⟩) 10 "signup" none none
        false "pw"
      = verifyOtpHandler "a@b.c" "123456"
        (some ⟨1, "a@b.c", "123456", 0, 100, false, 5⟩) 10 "signup" none none
        false "pw" := by
  have h := C5_attempts_exhausted_always_rejects "a@b.c" "123456"
    ⟨1, "a@b.c", "123456", 0, 100, false, 5⟩ 10 "signup" none none false "pw"
    (by decide) (by decide) (by decide)
  exact ⟨h.1, h.2.2.1, h.2.2.2.2 "999999" (by decide)⟩

/-- Counterexample to claim C7 as stated: the three non-match failures do not
share one generic "no code found" response — an expired row answers
"OTP has expired" and an attempts-exhausted row answers "Too many failed
attempts...", both different from the missing-row response. -/
theorem C7_counterexample :
    (verifyOtpHandler "a@b.c" "111111"
      (some ⟨1, "a@b.c", "222222", 0, 5, false, 0⟩) 10 "signup" none none
      false "pw").1
      ≠ (verifyOtpHandler "a@b.c" "111111" none 10 "signup" none none false
        "pw").1 ∧
    (verifyOtpHandler "a@b.c" "111111"
      (some ⟨1, "a@b.c", "222222", 0, 50, false, 5⟩) 10 "signup" none none
      false "pw").1
      ≠ (verifyOtpHandler "a@b.c" "111111" none 10 "signup" none none false
        "pw").1 := by
  constructor <;> decide

/-- Claim C7 (amended).  Verification fails closed in all three non-match
situations, but with three distinct responses: 404 "No OTP found for this
email" when no unverified row exists, 400 "OTP has expired" when the row is
expired, and 400 "Too many failed attempts. Please request a new OTP" when
its attempts counter is at least 5; none of the three performs any write. -/
theorem C7_amended_fails_closed_distinct_messages (email otp : String)
    (now : ℤ) (purpose : String) (name role : Option String)
    (userExists : Bool) (tempPassword : String)
    (hemail : email ≠ "") (hotp : otp ≠ "") :
    (verifyOtpHandler email otp none now purpose name role userExists
        tempPassword
      = (errorResponse 404 "No OTP found for this email", [])) ∧
    (∀ rec : OtpRecord, rec.expires_at < now →
      verifyOtpHandler email otp (some rec) now purpose name role userExists
          tempPassword
        = (errorResponse 400 "OTP has expired", [])) ∧
    (∀ rec : OtpRecord, ¬rec.expires_at < now → 5 ≤ rec.attempts →
      verifyOtpHandler email otp (some rec) now purpose name role userExists
          tempPassword
        = (errorResponse 400
            "Too many failed attempts. Please request a new OTP", [])) := by
  refine ⟨?_, ?_, ?_⟩
  · exact verifyOtpHandler_none email otp now purpose name role userExists
      tempPassword hemail hotp
  · intro rec hexp
    rw [verifyOtpHandler_some email otp rec now purpose name role userExists
      tempPassword hemail hotp, if_pos hexp]
  · intro rec hexp hatt
    rw [verifyOtpHandler_some email otp rec now purpose name role userExists
      tempPassword hemail hotp, if_neg hexp, if_pos hatt]

/-- Witness for the amended C7: the three branches at concrete inputs. -/
theorem C7_amended_fails_closed_distinct_messages_witness :
    (verifyOtpHandler "a@b.c" "111111" none 10 "signup" none none false "pw"
      = (errorResponse 404 "No OTP found for this email", [])) ∧
    (verifyOtpHandler "a@b.c" "111111"
        (some ⟨1, "a@b.c", "222222", 0, 5, false, 0⟩) 10 "signup" none none
        false "pw"
      = (errorResponse 400 "OTP has expired", [])) ∧
    (verifyOtpHandler "a@b.c" "111111"
        (some ⟨1, "a@b.c", "222222", 0, 50, false, 5⟩) 10 "signup" none none
        false "pw"
      = (errorResponse 400
          "Too many failed attempts. Please request a new OTP", [])) := by
  have h := C7_amended_fails_closed_distinct_messages "a@b.c" "111111" 10
    "signup" none none false "pw" (by decide) (by decide)
  exact ⟨h.1, h.2.1 ⟨1, "a@b.c", "222222", 0, 5, false, 0⟩ (by decide),
    h.2.2 ⟨1, "a@b.c", "222222", 0, 50, false, 5⟩ (by decide) (by decide)⟩

/-- Claim C10.  A purpose-"reset" verification with a correct, unexpired code
under the attempt limit, for an email with no existing account, still returns
the 200 success response carrying the fresh temporary password, while
performing no writes at all: no password update, and the code row is not
marked verified. -/
theorem C10_reset_unknown_user_still_succeeds (email otp : String)
    (rec : OtpRecord) (now : ℤ) (name role : Option String)
    (tempPassword : String) (hemail : email ≠ "") (hotp : otp ≠ "")
    (hexp : ¬rec.expires_at < now) (hatt : rec.attempts < 5)
    (hmatch : trimStr rec.otp = trimStr otp) :
    verifyOtpHandler email otp (some rec) now "reset" name role false
        tempPassword
      = (successResponse tempPassword, []) := by
  rw [verifyOtpHandler_some email otp rec now "reset" name role false
    tempPassword hemail hotp, if_neg hexp, if_neg (by omega),
    if_neg (not_not_intro hmatch)]
  simp

/-- Witness for C10: a concrete reset request with a matching code and no
account returns success with the temporary password and writes nothing. -/
theorem C10_reset_unknown_user_still_succeeds_witness :
    verifyOtpHandler "a@b.c" " 123456 "
        (some ⟨1, "a@b.c", "123456", 0, 100, false, 4⟩) 10 "reset" none none
        false "pw"
      = (successResponse "pw", []) :=
  C10_reset_unknown_user_still_succeeds "a@b.c" " 123456 "
    ⟨1, "a@b.c", "123456", 0, 100, false, 4⟩ 10 none none "pw"
    (by decide) (by decide) (by decide) (by decide) (by decide)

/-- Claim C6.  After an issuance for an email, the table holds exactly one
unverified row for that email — the freshly inserted one — and the verified
rows are exactly those of the prior table. -/
theorem C6_single_unverified_row_after_issuance (table : List OtpRecord)
    (email otp : String) (now : ℤ) (newId : ℕ) :
    (issueOtp table email otp now newId).filter
        (fun r => decide (r.email = email ∧ r.verified = false))
      = [newOtpRow newId email otp now] ∧
    (issueOtp table email otp now newId).filter (fun r => r.verified)
      = table.filter (fun r => r.verified) := by
  constructor
  · unfold issueOtp deleteUnverifiedFor
    rw [List.filter_append, List.filter_filter]
    have h1 : List.filter (fun r =>
        decide (r.email = email ∧ r.verified = false)
          && decide (¬(r.email = email ∧ r.verified = false))) table
        = List.filter (fun _ => false) table := by
      apply List.filter_congr
      intro r _
      by_cases h : r.email = email ∧ r.verified = false
      · simp [h]
      · simp [h]
    rw [h1, List.filter_false, List.nil_append, List.filter_cons,
      if_pos (by simp [newOtpRow])]
    rfl
  · unfold issueOtp deleteUnverifiedFor
    rw [List.filter_append, List.filter_filter]
    have h2 : List.filter (fun r => r.verified
        && decide (¬(r.email = email ∧ r.verified = false))) table
        = List.filter (fun r => r.verified) table := by
      apply List.filter_congr
      intro r _
      by_cases hv : r.verified
      · simp [hv]
      · simp [hv]
    rw [h2]
    show _ ++ List.filter (fun r => r.verified) [newOtpRow newId email otp now]
      = _
    rw [List.filter_cons]
    rw [if_neg (by simp [newOtpRow])]
    simp

/-! ## Claim theorems: skill-string filtering -/

theorem strLength_pos_iff (s : String) : 0 < s.length ↔ s ≠ "" := by
  obtain ⟨l⟩ := s
  cases l with
  | nil => exact ⟨fun h => absurd h (by decide), fun h => absurd rfl h⟩
  | cons a t =>
    refine ⟨fun _ hEq => ?_, fun _ => ?_⟩
    · have h2 : (a :: t) = ([] : List Char) := congrArg String.data hEq
      exact absurd h2 (by simp)
    · show 0 < (a :: t).length
      simp

/-- Counterexample to claim C8 as stated: `"ab]cd"` contains `]` yet survives
both the extraction cleaning and the recommender filter, and a 51-character
string survives the recommender filter, which has no upper length bound. -/
theorem C8_counterexample :
    parseSkillsClean ["ab]cd"] = ["ab]cd"] ∧
    recommenderSkillKeep "ab]cd" = true ∧
    strIncludes "ab]cd" (charStr rBracketChar) = true ∧
    recommenderSkillKeep ⟨List.replicate 51 'a'⟩ = true := by
  refine ⟨?_, ?_, ?_, ?_⟩ <;> decide

/-- Claim C8 (amended).  A raw skill string is kept by the extraction cleaner
exactly when it is non-empty, between 2 and 50 characters, and free of `[`,
`=` and `{`; it is kept by the recommender's filter exactly when it is
non-empty, at least 2 characters, and free of the same three characters
(no upper length bound there).  `]` and `}` are checked by neither filter.
The extraction output additionally drops strings that trim to empty: its
members are exactly the trimmed survivors that remain non-empty. -/
theorem C8_amended_filter_characterization :
    (∀ skill : String,
      parseSkillKeep skill = true ↔
        skill ≠ "" ∧ 2 ≤ skill.length ∧ skill.length ≤ 50 ∧
        strIncludes skill (charStr lBracketChar) = false ∧
        strIncludes skill (charStr equalsChar) = false ∧
        strIncludes skill (charStr lCurlyChar) = false) ∧
    (∀ skill : String,
      recommenderSkillKeep skill = true ↔
        skill ≠ "" ∧ 2 ≤ skill.length ∧
        strIncludes skill (charStr lBracketChar) = false ∧
        strIncludes skill (charStr equalsChar) = false ∧
        strIncludes skill (charStr lCurlyChar) = false) ∧
    (∀ (skills : List String) (s : String),
      s ∈ parseSkillsClean skills ↔
        ∃ t ∈ skills, parseSkillKeep t = true ∧ s = trimStr t ∧ s ≠ "") := by
  refine ⟨?_, ?_, ?_⟩
  · intro skill
    unfold parseSkillKeep
    split_ifs with h1 h2 h3
    · simp [h1]
    · refine ⟨fun h => absurd h (by decide), ?_⟩
      rintro ⟨-, hb, hc, -, -, -⟩
      exact absurd h2 (by omega)
    · refine ⟨fun h => absurd h (by decide), ?_⟩
      rintro ⟨-, -, -, ha, hb, hc⟩
      rw [ha, hb, hc] at h3
      exact absurd h3 (by decide)
    · push_neg at h2
      simp only [Bool.or_eq_true, not_or] at h3
      refine ⟨fun _ => ⟨h1, by omega, by omega, ?_, ?_, ?_⟩, fun _ => rfl⟩
      · exact Bool.not_eq_true _ ▸ Bool.of_not_eq_true h3.1.1
      · exact Bool.not_eq_true _ ▸ Bool.of_not_eq_true h3.1.2
      · exact Bool.not_eq_true _ ▸ Bool.of_not_eq_true h3.2
  · intro skill
    unfold recommenderSkillKeep
    split_ifs with h1 h3
    · simp [h1]
    · refine ⟨fun h => absurd h (by decide), ?_⟩
      rintro ⟨-, -, ha, hb, hc⟩
      rw [ha, hb, hc] at h3
      exact absurd h3 (by decide)
    · simp only [Bool.or_eq_true, not_or] at h3
      rw [decide_eq_true_eq]
      constructor
      · intro hlen
        refine ⟨h1, by omega, ?_, ?_, ?_⟩
        · exact Bool.not_eq_true _ ▸ Bool.of_not_eq_true h3.1.1
        · exact Bool.not_eq_true _ ▸ Bool.of_not_eq_true h3.1.2
        · exact Bool.not_eq_true _ ▸ Bool.of_not_eq_true h3.2
      · rintro ⟨-, hb, -⟩
        omega
  · intro skills s
    unfold parseSkillsClean
    constructor
    · intro hf
      obtain ⟨hmem, hq⟩ := List.mem_filter.mp hf
      obtain ⟨t, htmem, hts⟩ := List.mem_map.mp hmem
      obtain ⟨hts', hkeep⟩ := List.mem_filter.mp htmem
      exact ⟨t, hts', hkeep, hts.symm,
        (strLength_pos_iff s).mp (of_decide_eq_true hq)⟩
    · rintro ⟨t, htmem, hkeep, hs, hne⟩
      exact List.mem_filter.mpr
        ⟨List.mem_map.mpr ⟨t, List.mem_filter.mpr ⟨htmem, hkeep⟩, hs.symm⟩,
          decide_eq_true ((strLength_pos_iff s).mpr hne)⟩

/-! ## Claim theorems: OTP code generation -/

theorem genOtpNat_lower {r : ℚ} (h0 : 0 ≤ r) : 100000 ≤ genOtpNat r := by
  unfold genOtpNat
  have hfl : (100000 : ℤ) ≤ ⌊(100000 : ℚ) + r * 900000⌋ := by
    apply Int.le_floor.mpr
    have h9 : (0 : ℚ) ≤ r * 900000 := mul_nonneg h0 (by norm_num)
    push_cast
    linarith
  omega

theorem genOtpNat_upper {r : ℚ} (h1 : r < 1) : genOtpNat r ≤ 999999 := by
  unfold genOtpNat
  have hfl : ⌊(100000 : ℚ) + r * 900000⌋ < 1000000 := by
    apply Int.floor_lt.mpr
    have h9 : r * 900000 < 1 * 900000 :=
      mul_lt_mul_of_pos_right h1 (by norm_num)
    push_cast
    linarith
  omega

/-- Counterexample to claim C9 as stated: the generated value always lies in
`[100000, 999999]`, so the code string `"000000"` (and any other code with a
leading zero) can never be produced by any value of `Math.random()`. -/
theorem C9_counterexample :
    ¬ ∃ r : ℚ, 0 ≤ r ∧ r < 1 ∧ otpCodeString r = "000000" := by
  rintro ⟨r, h0, -, hs⟩
  have hn : 100000 ≤ genOtpNat r := genOtpNat_lower h0
  have hne : genOtpNat r ≠ 0 := by omega
  unfold otpCodeString decimalString at hs
  have hdata : (Nat.digits 10 (genOtpNat r)).reverse.map
      (fun d => Char.ofNat (48 + d)) = "000000".data :=
    congrArg String.data hs
  have hzeros : "000000".data = List.replicate 6 '0' := rfl
  rw [hzeros] at hdata
  have hall := (List.eq_replicate_iff.mp hdata).2
  have hnil : Nat.digits 10 (genOtpNat r) ≠ [] :=
    Nat.digits_ne_nil_iff_ne_zero.mpr hne
  have hgmem : (Nat.digits 10 (genOtpNat r)).getLast hnil
      ∈ Nat.digits 10 (genOtpNat r) := List.getLast_mem hnil
  have hchar : Char.ofNat (48 + (Nat.digits 10 (genOtpNat r)).getLast hnil)
      = '0' :=
    hall _ (List.mem_map_of_mem _ (List.mem_reverse.mpr hgmem))
  have hglt : (Nat.digits 10 (genOtpNat r)).getLast hnil < 10 :=
    Nat.digits_lt_base (by norm_num) hgmem
  have htn : (Char.ofNat
      (48 + (Nat.digits 10 (genOtpNat r)).getLast hnil)).toNat
      = 48 + (Nat.digits 10 (genOtpNat r)).getLast hnil :=
    char_toNat_ofNat (Or.inl (by omega))
  rw [hchar] at htn
  have hz : '0'.toNat = 48 := rfl
  have hg0 : (Nat.digits 10 (genOtpNat r)).getLast hnil = 0 := by omega
  exact Nat.getLast_digit_ne_zero 10 hne hg0

/-- Claim C9 (amended).  The generated code is a uniformly drawn integer in
`[100000, 999999]` rendered as its 6-digit decimal string: every value of
`Math.random()` in `[0, 1)` yields a code in that range whose string has
exactly 6 characters, and every integer in the range is reachable from some
such value — so codes `"000000"` through `"099999"` are never generated and
no leading-zero padding ever occurs. -/
theorem C9_amended_range_and_six_digits :
    (∀ r : ℚ, 0 ≤ r → r < 1 →
      100000 ≤ genOtpNat r ∧ genOtpNat r ≤ 999999 ∧
      (otpCodeString r).length = 6) ∧
    (∀ n : ℕ, 100000 ≤ n → n ≤ 999999 →
      ∃ r : ℚ, 0 ≤ r ∧ r < 1 ∧ genOtpNat r = n) := by
  constructor
  · intro r h0 h1
    have hlo := genOtpNat_lower h0
    have hhi := genOtpNat_upper h1
    refine ⟨hlo, hhi, ?_⟩
    show ((Nat.digits 10 (genOtpNat r)).reverse.map
      (fun d => Char.ofNat (48 + d))).length = 6
    rw [List.length_map, List.length_reverse,
      Nat.digits_len 10 _ (by norm_num) (by omega)]
    have hlog : Nat.log 10 (genOtpNat r) = 5 := by
      apply Nat.log_eq_of_pow_le_of_lt_pow
      · show 10 ^ 5 ≤ genOtpNat r
        have : (10 : ℕ) ^ 5 = 100000 := by norm_num
        omega
      · show genOtpNat r < 10 ^ (5 + 1)
        have : (10 : ℕ) ^ (5 + 1) = 1000000 := by norm_num
        omega
    rw [hlog]
  · intro n hlo hhi
    refine ⟨((n : ℚ) - 100000) / 900000, ?_, ?_, ?_⟩
    · apply div_nonneg _ (by norm_num)
      have h : (100000 : ℚ) ≤ (n : ℚ) := by exact_mod_cast hlo
      linarith
    · rw [div_lt_one (by norm_num)]
      have h : (n : ℚ) ≤ 999999 := by exact_mod_cast hhi
      linarith
    · unfold genOtpNat
      have harg : (100000 : ℚ) + ((n : ℚ) - 100000) / 900000 * 900000
          = (n : ℚ) := by
        field_simp
      rw [harg, Int.floor_natCast]
      omega

/-- Witness for the amended C9: the extreme draw 0 gives 100000 as a 6-digit
code, and 123456 is reachable. -/
theorem C9_amended_range_and_six_digits_witness :
    (100000 ≤ genOtpNat 0 ∧ genOtpNat 0 ≤ 999999 ∧
      (otpCodeString 0).length = 6) ∧
    (∃ r : ℚ, 0 ≤ r ∧ r < 1 ∧ genOtpNat r = 123456) :=
  ⟨C9_amended_range_and_six_digits.1 0 (by norm_num) (by norm_num),
    C9_amended_range_and_six_digits.2 123456 (by norm_num) (by norm_num)⟩

end Placement
